import Mathlib

/-!
Verification development for the security-scanning core of the repository
(`src/archive/internal/bridge/pyhelper/security_scan.py`).

The Python module is embedded shallowly:

* Regular-expression matching (`re.finditer`) is embedded as a small
  backtracking matcher over an explicit regex AST.  The matcher reproduces
  Python semantics for the fixed pattern set of the scanner: leftmost
  search, left-biased alternation, greedy quantifiers, non-overlapping
  matches continuing at each match end.
* The filesystem is embedded as the `os.walk` result the detectors consume:
  a list of `(root, dirs, files)` records, where each entry carries the
  observations the code makes of it (`st_mode` and whether `os.stat`
  succeeds; for files, the text content when the file is readable and
  decodable as UTF-8, and its content hash).
* Python exceptions that escape a function are embedded as `Except`;
  exceptions swallowed by a `try/except ... continue` are embedded as the
  corresponding skip.
-/

namespace SecScan

/-! ## Regex AST and backtracking matcher -/

/-- Regex AST covering the constructs used by the scanner's patterns:
literal characters (case sensitive or under the `(?i)` flag), `\s`,
character classes, negated classes, concatenation, alternation and
greedy star. -/
inductive Rx where
  | eps : Rx
  | ch (c : Char) : Rx
  | chI (c : Char) : Rx
  | wsp : Rx
  | oneOf (cs : List Char) : Rx
  | notCls (cs : List Char) : Rx
  | cat (a b : Rx) : Rx
  | alt (a b : Rx) : Rx
  | star (r : Rx) : Rx
deriving Repr, DecidableEq

/-- The characters matched by Python `\s` (ASCII range). -/
def wspChars : List Char := [' ', '\t', '\n', '\r', Char.ofNat 11, Char.ofNat 12]

/-- Backtracking matcher in continuation-passing style.  `mrun fuel r s k`
tries to match `r` at the head of `s` and passes each candidate remainder to
`k`, in Python preference order (left alternative first, greedy star), and
returns the first success.  One unit of fuel is consumed per call, which
makes the recursion structural on `fuel`; callers pass fuel that dominates
the length of any evaluation path for the scanner's patterns, so the
out-of-fuel branch is never reached there. -/
def mrun : Nat → Rx → List Char → (List Char → Option (List Char)) → Option (List Char)
  | 0, _, _, _ => none
  | _ + 1, .eps, s, k => k s
  | _ + 1, .ch c, s, k =>
    match s with
    | [] => none
    | d :: t => if d = c then k t else none
  | _ + 1, .chI c, s, k =>
    match s with
    | [] => none
    | d :: t => if d.toLower = c.toLower then k t else none
  | _ + 1, .wsp, s, k =>
    match s with
    | [] => none
    | d :: t => if wspChars.contains d then k t else none
  | _ + 1, .oneOf cs, s, k =>
    match s with
    | [] => none
    | d :: t => if cs.contains d then k t else none
  | _ + 1, .notCls cs, s, k =>
    match s with
    | [] => none
    | d :: t => if cs.contains d then none else k t
  | f + 1, .cat a b, s, k => mrun f a s (fun s' => mrun f b s' k)
  | f + 1, .alt a b, s, k => (mrun f a s k) <|> (mrun f b s k)
  | f + 1, .star r, s, k =>
    (mrun f r s (fun s' => mrun f (.star r) s' k)) <|> k s

/-- Number of AST nodes, used to size the matcher's fuel. -/
def Rx.nodes : Rx → Nat
  | .eps | .ch _ | .chI _ | .wsp | .oneOf _ | .notCls _ => 1
  | .cat a b | .alt a b => a.nodes + b.nodes + 1
  | .star r => r.nodes + 1

/-- Fuel that dominates every evaluation path of the scanner's patterns on
an input of `l` characters: every starred subpattern consumes at least one
character per iteration and no star is nested inside another. -/
def rxFuel (r : Rx) (l : Nat) : Nat := (r.nodes + 2) * 4 * (l + 2)

/-- Length of the (preferred) match of `r` at the start of `s`, if any. -/
def matchLenAt (r : Rx) (s : List Char) : Option Nat :=
  match mrun (rxFuel r s.length) r s some with
  | none => none
  | some rem => some (s.length - rem.length)

/-- Worker for `finditer`: scan positions left to right, at each position
take the preferred match if one exists, record its span and continue at its
end (advancing one character past a zero-width match, as Python does). -/
def findItAux : Nat → Rx → List Char → Nat → List (Nat × Nat)
  | 0, _, _, _ => []
  | fuel + 1, r, s, pos =>
    match matchLenAt r s with
    | some len =>
      if len = 0 then
        match s with
        | [] => [(pos, pos)]
        | _ :: t => (pos, pos) :: findItAux fuel r t (pos + 1)
      else
        (pos, pos + len) :: findItAux fuel r (s.drop len) (pos + len)
    | none =>
      match s with
      | [] => []
      | _ :: t => findItAux fuel r t (pos + 1)

/-- All non-overlapping matches of `r` in `content`, as `(start, end)`
offset pairs — the spans `re.finditer` yields. -/
def finditer (r : Rx) (content : String) : List (Nat × Nat) :=
  findItAux (content.length + 1) r content.toList 0

/-- The start offsets of the matches (`match.start()` in the code). -/
def matchStarts (r : Rx) (content : String) : List Nat :=
  (finditer r content).map (fun p => p.1)

/-! ## The scanner's patterns -/

/-- Literal string, case sensitive. -/
def Rx.lit (s : String) : Rx := s.toList.foldr (fun c r => .cat (.ch c) r) .eps

/-- Literal string under the `(?i)` flag. -/
def Rx.litI (s : String) : Rx := s.toList.foldr (fun c r => .cat (.chI c) r) .eps

/-- Sequence of regexes. -/
def Rx.seq (l : List Rx) : Rx := l.foldr .cat .eps

/-- Zero-or-one (`?`). -/
def Rx.opt (r : Rx) : Rx := .alt r .eps

/-- One-or-more, greedy (`+`). -/
def Rx.plus (r : Rx) : Rx := .cat r (.star r)

/-- The class `["\']`. -/
def quoteCls : Rx := .oneOf ['"', '\'']

/-- The class `[^"\']`. -/
def notQuote : Rx := .notCls ['"', '\'']

/-- Shared tail of the key/password/token patterns:
`["\']?\s*(?::|=)\s*["\']([^"\']+)`. -/
def kvTail : Rx :=
  .seq [Rx.opt quoteCls, .star .wsp, .oneOf [':', '='], .star .wsp, quoteCls,
    Rx.plus notQuote]

/-- `(?i)(api[_-]key|apikey|secret)["\']?\s*(?::|=)\s*["\']([^"\']+)` -/
def apiKeyRx : Rx :=
  .cat (.alt (.alt (.seq [Rx.litI "api", .oneOf ['_', '-'], Rx.litI "key"])
      (Rx.litI "apikey")) (Rx.litI "secret")) kvTail

/-- `(?i)(password|passwd|pwd)["\']?\s*(?::|=)\s*["\']([^"\']+)` -/
def passwordRx : Rx :=
  .cat (.alt (.alt (Rx.litI "password") (Rx.litI "passwd")) (Rx.litI "pwd")) kvTail

/-- `-----BEGIN (?:RSA )?PRIVATE KEY-----` (no `(?i)` flag). -/
def privateKeyRx : Rx :=
  .seq [Rx.lit "-----BEGIN ", Rx.opt (Rx.lit "RSA "), Rx.lit "PRIVATE KEY-----"]

/-- `(?i)(access_token|auth_token|jwt)["\']?\s*(?::|=)\s*["\']([^"\']+)` -/
def tokenRx : Rx :=
  .cat (.alt (.alt (Rx.litI "access_token") (Rx.litI "auth_token"))
    (Rx.litI "jwt")) kvTail

/-- `self.sensitive_patterns`, in dict insertion order. -/
def sensitive_patterns : List (String × Rx) :=
  [("api_key", apiKeyRx), ("password", passwordRx),
   ("private_key", privateKeyRx), ("token", tokenRx)]

/-- `(?i)(?:execute|exec)\s*\(\s*["\']?\s*SELECT` -/
def sqlInjectionRx : Rx :=
  .seq [.alt (Rx.litI "execute") (Rx.litI "exec"), .star .wsp, .ch '(',
    .star .wsp, Rx.opt quoteCls, .star .wsp, Rx.litI "SELECT"]

/-- `(?i)innerHTML\s*=|document\.write\s*\(` (top-level alternation). -/
def xssRx : Rx :=
  .alt (.seq [Rx.litI "innerHTML", .star .wsp, .ch '='])
    (.seq [Rx.litI "document", .ch '.', Rx.litI "write", .star .wsp, .ch '('])

/-- `(?i)(?:system|exec|eval)\s*\(` -/
def commandInjectionRx : Rx :=
  .seq [.alt (.alt (Rx.litI "system") (Rx.litI "exec")) (Rx.litI "eval"),
    .star .wsp, .ch '(']

/-- `\.\./` -/
def pathTraversalRx : Rx := Rx.lit "../"

/-- `vulnerability_patterns` of `_scan_vulnerabilities`, in dict insertion
order. -/
def vulnerability_patterns : List (String × Rx) :=
  [("sql_injection", sqlInjectionRx), ("xss", xssRx),
   ("command_injection", commandInjectionRx), ("path_traversal", pathTraversalRx)]

/-! ## Data model -/

/-- `SecurityIssue` dataclass. -/
structure SecurityIssue where
  type : String
  description : String
  severity : String
  file_path : String := ""
  line_number : Nat := 0
  recommendation : String := ""
deriving Repr, DecidableEq

/-- The summary dict built by `_generate_summary`.  The two counting dicts
are embedded as insertion-ordered association lists, the shape a Python
dict exposes. -/
structure Summary where
  total_issues : Nat
  severity_counts : List (String × Nat)
  issue_types : List (String × Nat)
  recommendations : Nat
deriving Repr, DecidableEq

/-- `ScanResult` dataclass. -/
structure ScanResult where
  timestamp : String
  issues : List SecurityIssue
  summary : Summary
  is_secure : Bool
deriving Repr, DecidableEq

/-- What the code observes of a directory entry through `os.stat`:
the `st_mode` word, and whether the call succeeds (`ok = false` models
`OSError`). -/
structure StatInfo where
  mode : Nat
  ok : Bool
deriving Repr, DecidableEq

/-- A file as the detectors observe it: its basename, its stat result,
its text content (`none` models `UnicodeDecodeError`/`IOError` on
`open`/`read`), and the hex digest `hashlib.sha256` would produce for its
raw bytes. -/
structure FileEntry where
  name : String
  stat : StatInfo
  content : Option String
  hash : String := ""
deriving Repr, DecidableEq

/-- A subdirectory as listed by `os.walk`. -/
structure DirEntry where
  name : String
  stat : StatInfo
deriving Repr, DecidableEq

/-- One `(root, dirs, files)` triple yielded by `os.walk`. -/
structure WalkDir where
  root : String
  dirs : List DirEntry
  files : List FileEntry
deriving Repr, DecidableEq

/-- A project filesystem, embedded as the `os.walk` sequence every detector
consumes.  `os.walk` over a path that does not exist or is not a readable
directory yields no triples at all (and raises nothing), so such a path is
embedded as `[]`. -/
abbrev Walk := List WalkDir

/-- `os.path.join(root, item)` for the paths the scanner builds. -/
def joinPath (root name : String) : String := root ++ "/" ++ name

/-- `str.startswith`, computed on the character list so that the kernel can
evaluate it. -/
def strStarts (s pre : String) : Bool := pre.toList.isPrefixOf s.toList

/-- `str.endswith`, computed on the character list so that the kernel can
evaluate it. -/
def strEnds (s suf : String) : Bool := suf.toList.isSuffixOf s.toList

/-- `str.lower`, computed on the character list so that the kernel can
evaluate it. -/
def strLower (s : String) : String := String.mk (s.toList.map Char.toLower)

/-! ## Detectors -/

/-- The issue `_scan_project_structure` appends for a fully permissive
entry. -/
def permissionIssue (p : String) : SecurityIssue :=
  { type := "excessive_permissions",
    description := "File has excessive permissions: " ++ p,
    severity := "medium",
    file_path := p,
    line_number := 0,
    recommendation := "Restrict file permissions to minimum required" }

/-- `_scan_project_structure`: for every walked entry (`dirs + files` per
root), stat it (an `OSError` skips the entry) and flag it when
`st_mode & 0o777 == 0o777`; `st_mode & 0o777` is `mode % 512`. -/
def scan_project_structure (w : Walk) : List SecurityIssue :=
  w.foldl (fun acc wd =>
    ((wd.dirs.map (fun d => (d.name, d.stat))) ++
        (wd.files.map (fun f => (f.name, f.stat)))).foldl (fun acc2 p =>
      if p.2.ok then
        if p.2.mode % 512 = 511 then
          acc2 ++ [permissionIssue (joinPath wd.root p.1)]
        else acc2
      else acc2) acc) []

/-- `_scan_dependencies`: checks the presence of well-known manifest
filenames but its loop body is a TODO `pass`, so it never appends an
issue. -/
def scan_dependencies (_w : Walk) : List SecurityIssue := []

/-- The media extensions `_scan_sensitive_info` skips. -/
def mediaExts : List String := [".jpg", ".png", ".gif", ".pdf"]

/-- The skip test of `_scan_sensitive_info`:
`file.startswith('.') or file.endswith(('.jpg', '.png', '.gif', '.pdf'))`. -/
def sensitiveSkip (name : String) : Bool :=
  strStarts name "." || mediaExts.any (fun e => strEnds name e)

/-- The issue the sensitive-data loop appends for a match of pattern `pn`
starting at offset `st`, with
`line_number = content.count('\n', 0, match.start()) + 1`. -/
def sensitiveIssueAt (pn fp content : String) (st : Nat) : SecurityIssue :=
  { type := "sensitive_information",
    description := "Found potential " ++ pn ++ " in file",
    severity := "high",
    file_path := fp,
    line_number := ((content.toList.take st).count '\n') + 1,
    recommendation := "Remove " ++ pn ++
      " from source code and use environment variables or secure secrets management" }

/-- The issues the sensitive-data loop emits for one decodable file:
for each pattern, one issue per match. -/
def sensitiveIssuesOfContent (fp content : String) : List SecurityIssue :=
  sensitive_patterns.foldl (fun acc pp =>
    acc ++ (matchStarts pp.2 content).map (sensitiveIssueAt pp.1 fp content)) []

/-- `_scan_sensitive_info`: walk all files, skip hidden and media names,
skip files whose open/read raises (`UnicodeDecodeError`/`IOError`), and
scan each remaining content against `sensitive_patterns`. -/
def scan_sensitive_info (w : Walk) : List SecurityIssue :=
  w.foldl (fun acc wd =>
    wd.files.foldl (fun acc2 f =>
      if sensitiveSkip f.name then acc2
      else
        match f.content with
        | none => acc2
        | some content =>
          acc2 ++ sensitiveIssuesOfContent (joinPath wd.root f.name) content) acc) []

/-- `_load_malware_signatures`: the TODO stub returns the empty list. -/
def malware_signatures : List String := []

/-- The issue `_scan_malware` appends on a signature hit. -/
def malwareIssue (p : String) : SecurityIssue :=
  { type := "malware_detected",
    description := "Potential malware detected: " ++ p,
    severity := "critical",
    file_path := p,
    line_number := 0,
    recommendation := "Remove malicious file immediately" }

/-- `_scan_malware`: for each walked file, test its sha256 digest for
membership in `malware_signatures`.  The `magic`-based skip of
text/image/empty files and the `IOError` skip only decide whether the
membership test runs; with the empty signature list the test is false
either way, so they do not affect the output. -/
def scan_malware (w : Walk) : List SecurityIssue :=
  w.foldl (fun acc wd =>
    wd.files.foldl (fun acc2 f =>
      if malware_signatures.contains f.hash then
        acc2 ++ [malwareIssue (joinPath wd.root f.name)]
      else acc2) acc) []

/-- The source-extension allow-list of `_scan_vulnerabilities`. -/
def srcExts : List String := [".js", ".py", ".php", ".rb", ".go"]

/-- The issue the vulnerability loop appends for a match of pattern `pn`
starting at offset `st`. -/
def vulnIssueAt (pn fp content : String) (st : Nat) : SecurityIssue :=
  { type := "potential_" ++ pn,
    description := "Potential " ++ pn ++ " vulnerability detected",
    severity := "high",
    file_path := fp,
    line_number := ((content.toList.take st).count '\n') + 1,
    recommendation := "Review and fix potential " ++ pn ++ " vulnerability" }

/-- The issues the vulnerability loop emits for one decodable file. -/
def vulnIssuesOfContent (fp content : String) : List SecurityIssue :=
  vulnerability_patterns.foldl (fun acc pp =>
    acc ++ (matchStarts pp.2 content).map (vulnIssueAt pp.1 fp content)) []

/-- `_scan_vulnerabilities`: walk all files, keep only names ending in one
of the allowed source extensions (there is no hidden-file test here), skip
files whose open/read raises, and scan each remaining content against
`vulnerability_patterns`. -/
def scan_vulnerabilities (w : Walk) : List SecurityIssue :=
  w.foldl (fun acc wd =>
    wd.files.foldl (fun acc2 f =>
      if !(srcExts.any (fun e => strEnds f.name e)) then acc2
      else
        match f.content with
        | none => acc2
        | some content =>
          acc2 ++ vulnIssuesOfContent (joinPath wd.root f.name) content) acc) []

/-! ## Aggregation -/

/-- Lookup in an insertion-ordered association list (Python `k in d` /
`d[k]` read side). -/
def assocGet : List (String × Nat) → String → Option Nat
  | [], _ => none
  | (k, v) :: t, key => if k = key then some v else assocGet t key

/-- Python `d[key] += 1`: increment in place when the key is present,
`none` when it is absent (a `KeyError`). -/
def assocIncr : List (String × Nat) → String → Option (List (String × Nat))
  | [], _ => none
  | (k, v) :: t, key =>
    if k = key then some ((k, v + 1) :: t)
    else (assocIncr t key).map (fun t' => (k, v) :: t')

/-- Python `d[key] = d.get(key, 0) + 1`: update in place when present,
append when absent. -/
def assocGetIncr : List (String × Nat) → String → List (String × Nat)
  | [], key => [(key, 1)]
  | (k, v) :: t, key =>
    if k = key then (k, v + 1) :: t
    else (k, v) :: assocGetIncr t key

/-- The initial `severity_counts` dict of `_generate_summary`. -/
def init_severity_counts : List (String × Nat) :=
  [("critical", 0), ("high", 0), ("medium", 0), ("low", 0)]

/-- The counting loop of `_generate_summary`.
`severity_counts[issue.severity] += 1` raises `KeyError` when the severity
is not one of the four initialized keys; `none` embeds that exception. -/
def summLoop : List SecurityIssue → List (String × Nat) → List (String × Nat) →
    Option (List (String × Nat) × List (String × Nat))
  | [], sc, it => some (sc, it)
  | i :: rest, sc, it =>
    match assocIncr sc i.severity with
    | none => none
    | some sc' => summLoop rest sc' (assocGetIncr it i.type)

/-- `_generate_summary`.  The `KeyError` a foreign severity raises escapes
the function; it is embedded as the `Except.error` case. -/
def generate_summary (issues : List SecurityIssue) : Except String Summary :=
  match summLoop issues init_severity_counts [] with
  | none => .error "KeyError"
  | some (sc, it) =>
    .ok { total_issues := issues.length,
          severity_counts := sc,
          issue_types := it,
          recommendations := (issues.filter (fun i => !(i.recommendation == ""))).length }

/-! ## scan_project -/

/-- The concatenated findings of the five detectors, in invocation order. -/
def allIssues (w : Walk) : List SecurityIssue :=
  scan_project_structure w ++ scan_dependencies w ++ scan_sensitive_info w ++
    scan_malware w ++ scan_vulnerabilities w

/-- `scan_project`.  `ts` stands for `datetime.utcnow().isoformat()`.
The only exception that can escape is the aggregator's `KeyError`
(embedded as `Except.error`); every per-entry failure is swallowed inside
the detectors, and `os.walk` raises nothing for a missing or unreadable
path (it yields no triples, i.e. `w = []`). -/
def scan_project (ts : String) (w : Walk) : Except String ScanResult :=
  let issues := allIssues w
  match generate_summary issues with
  | .error e => .error e
  | .ok s =>
    .ok { timestamp := ts,
          issues := issues,
          summary := s,
          is_secure :=
            (issues.filter (fun i =>
              i.severity == "high" || i.severity == "critical")).length == 0 }

/-! ## check_security_headers -/

/-- The seven keys of the `security_headers` dict literal, in order. -/
def security_header_names : List String :=
  ["Strict-Transport-Security", "Content-Security-Policy", "X-Frame-Options",
   "X-Content-Type-Options", "X-XSS-Protection", "Referrer-Policy",
   "Permissions-Policy"]

/-- `header in response.headers`: requests exposes headers as a
case-insensitive mapping, so membership compares names lowercased. -/
def headerPresent (hs : List String) (name : String) : Bool :=
  hs.any (fun h => strLower h = strLower name)

/-- `check_security_headers`.  The transport result of `requests.get` is
the input: `Except.error` embeds a raised exception (returned as the
`{'error': ...}` payload), `Except.ok hs` a response whose header names
are `hs`.  On success the dict is initialized with all seven keys false
and the loop sets each key to the presence test. -/
def check_security_headers (resp : Except String (List String)) :
    Except String (List (String × Bool)) :=
  match resp with
  | .error e => .error e
  | .ok hs =>
    .ok ((security_header_names.map (fun n => (n, false))).map
      (fun p => (p.1, headerPresent hs p.1)))

/-! ## Helper views of the detectors -/

/-- The entries one `os.walk` triple contributes to the permission check
(`dirs + files`, in that order). -/
def walkEntries (wd : WalkDir) : List (String × StatInfo) :=
  wd.dirs.map (fun d => (d.name, d.stat)) ++ wd.files.map (fun f => (f.name, f.stat))

/-- Per-entry contribution of the permission detector. -/
def permEntryIssues (root : String) (p : String × StatInfo) : List SecurityIssue :=
  if p.2.ok then
    if p.2.mode % 512 = 511 then [permissionIssue (joinPath root p.1)] else []
  else []

/-- Per-file contribution of the sensitive-data detector. -/
def sensitiveFileIssues (root : String) (f : FileEntry) : List SecurityIssue :=
  if sensitiveSkip f.name then []
  else
    match f.content with
    | none => []
    | some c => sensitiveIssuesOfContent (joinPath root f.name) c

/-- Per-file contribution of the malware detector. -/
def malwareFileIssues (root : String) (f : FileEntry) : List SecurityIssue :=
  if malware_signatures.contains f.hash then [malwareIssue (joinPath root f.name)]
  else []

/-- Per-file contribution of the vulnerability-pattern detector. -/
def vulnFileIssues (root : String) (f : FileEntry) : List SecurityIssue :=
  if !(srcExts.any (fun e => strEnds f.name e)) then []
  else
    match f.content with
    | none => []
    | some c => vulnIssuesOfContent (joinPath root f.name) c

/-- The walk with every file whose content is not decodable as text
removed. -/
def dropUndecodable (w : Walk) : Walk :=
  w.map (fun wd => { wd with files := wd.files.filter (fun f => f.content.isSome) })

/-- The walk with every hidden file (basename starting with a dot)
removed. -/
def dropHidden (w : Walk) : Walk :=
  w.map (fun wd => { wd with files := wd.files.filter (fun f => !(strStarts f.name ".")) })

/-- The report of a successful scan (used to state concrete instances). -/
def reportOf (ts : String) (w : Walk) : ScanResult :=
  (scan_project ts w).toOption.getD
    { timestamp := "", issues := [],
      summary := { total_issues := 0, severity_counts := [], issue_types := [],
                   recommendations := 0 },
      is_secure := false }

/-- The summary of a successful aggregation (used to state concrete
instances). -/
def summaryOf (issues : List SecurityIssue) : Summary :=
  (generate_summary issues).toOption.getD
    { total_issues := 0, severity_counts := [], issue_types := [], recommendations := 0 }

/-- The mapping of a successful header audit (used to state concrete
instances). -/
def headerAuditOf (hs : List String) : List (String × Bool) :=
  (check_security_headers (.ok hs)).toOption.getD []

end SecScan

deriving instance DecidableEq for Except

namespace SecScan

/-! ## List lemmas -/

/-- A left fold whose step appends a per-element block to the accumulator
is the accumulator followed by the concatenation of the blocks. -/
theorem foldl_extend {α β : Type} (g : α → List β) (step : List β → α → List β)
    (hstep : ∀ acc x, step acc x = acc ++ g x) :
    ∀ (l : List α) (acc : List β), l.foldl step acc = acc ++ l.flatMap g := by
  intro l
  induction l with
  | nil => intro acc; simp
  | cons x t ih => intro acc; simp [hstep, ih]

/-- Elements on which `g` is empty can be dropped from a `flatMap`. -/
theorem flatMap_filter_of_nil {α β : Type} (g : α → List β) (p : α → Bool)
    (hg : ∀ x, p x = false → g x = []) :
    ∀ (l : List α), l.flatMap g = (l.filter p).flatMap g := by
  intro l
  induction l with
  | nil => rfl
  | cons x t ih =>
    by_cases hx : p x = true
    · simp [List.filter_cons, hx, ih]
    · simp only [Bool.not_eq_true] at hx
      simp [List.filter_cons, hx, hg x hx, ih]

/-! ## Characterizations of the detectors -/

theorem scan_project_structure_eq (w : Walk) :
    scan_project_structure w =
      w.flatMap (fun wd => (walkEntries wd).flatMap (permEntryIssues wd.root)) := by
  unfold scan_project_structure
  simp only [walkEntries]
  refine (foldl_extend
    (fun wd => ((wd.dirs.map (fun d => (d.name, d.stat))) ++
      (wd.files.map (fun f => (f.name, f.stat)))).flatMap (permEntryIssues wd.root))
    _ ?_ w []).trans (by simp)
  intro acc wd
  refine foldl_extend (permEntryIssues wd.root) _ ?_ _ acc
  intro acc2 p
  unfold permEntryIssues
  by_cases hok : p.2.ok = true
  · simp only [hok, if_true]
    by_cases hm : p.2.mode % 512 = 511 <;> simp [hm]
  · simp only [Bool.not_eq_true] at hok
    simp [hok]

theorem scan_sensitive_info_eq (w : Walk) :
    scan_sensitive_info w =
      w.flatMap (fun wd => wd.files.flatMap (sensitiveFileIssues wd.root)) := by
  unfold scan_sensitive_info
  refine (foldl_extend
    (fun wd => wd.files.flatMap (sensitiveFileIssues wd.root)) _ ?_ w []).trans (by simp)
  intro acc wd
  refine foldl_extend (sensitiveFileIssues wd.root) _ ?_ wd.files acc
  intro acc2 f
  unfold sensitiveFileIssues
  by_cases hs : sensitiveSkip f.name = true
  · simp [hs]
  · simp only [Bool.not_eq_true] at hs
    cases hc : f.content <;> simp [hs, hc]

theorem scan_malware_eq (w : Walk) :
    scan_malware w =
      w.flatMap (fun wd => wd.files.flatMap (malwareFileIssues wd.root)) := by
  unfold scan_malware
  refine (foldl_extend
    (fun wd => wd.files.flatMap (malwareFileIssues wd.root)) _ ?_ w []).trans (by simp)
  intro acc wd
  refine foldl_extend (malwareFileIssues wd.root) _ ?_ wd.files acc
  intro acc2 f
  unfold malwareFileIssues
  by_cases hm : malware_signatures.contains f.hash = true <;> simp_all

theorem scan_vulnerabilities_eq (w : Walk) :
    scan_vulnerabilities w =
      w.flatMap (fun wd => wd.files.flatMap (vulnFileIssues wd.root)) := by
  unfold scan_vulnerabilities
  refine (foldl_extend
    (fun wd => wd.files.flatMap (vulnFileIssues wd.root)) _ ?_ w []).trans (by simp)
  intro acc wd
  refine foldl_extend (vulnFileIssues wd.root) _ ?_ wd.files acc
  intro acc2 f
  unfold vulnFileIssues
  by_cases he : (!(srcExts.any (fun e => strEnds f.name e))) = true
  · simp [he]
  · simp only [Bool.not_eq_true] at he
    cases hc : f.content <;> simp [he, hc]

/-- `_scan_malware` emits nothing: the signature database is loaded as the
empty list, so the membership test never succeeds. -/
theorem scan_malware_nil (w : Walk) : scan_malware w = [] := by
  rw [scan_malware_eq]
  have h : ∀ wd : WalkDir, wd.files.flatMap (malwareFileIssues wd.root) = [] := by
    intro wd
    have : ∀ f, malwareFileIssues wd.root f = [] := by
      intro f; unfold malwareFileIssues malware_signatures; simp
    simp [this]
  simp [h]

theorem sensitiveIssuesOfContent_eq (fp c : String) :
    sensitiveIssuesOfContent fp c =
      sensitive_patterns.flatMap
        (fun pp => (matchStarts pp.2 c).map (sensitiveIssueAt pp.1 fp c)) := by
  unfold sensitiveIssuesOfContent
  refine (foldl_extend
    (fun pp => (matchStarts pp.2 c).map (sensitiveIssueAt pp.1 fp c))
    _ ?_ sensitive_patterns []).trans (by simp)
  intro acc pp
  rfl

theorem vulnIssuesOfContent_eq (fp c : String) :
    vulnIssuesOfContent fp c =
      vulnerability_patterns.flatMap
        (fun pp => (matchStarts pp.2 c).map (vulnIssueAt pp.1 fp c)) := by
  unfold vulnIssuesOfContent
  refine (foldl_extend
    (fun pp => (matchStarts pp.2 c).map (vulnIssueAt pp.1 fp c))
    _ ?_ vulnerability_patterns []).trans (by simp)
  intro acc pp
  rfl

/-! ## Severities emitted by the detectors -/

theorem allIssues_severity (w : Walk) :
    ∀ i ∈ allIssues w, i.severity = "medium" ∨ i.severity = "high" := by
  intro i hi
  unfold allIssues at hi
  simp only [List.mem_append] at hi
  rcases hi with ((((h | h) | h) | h) | h)
  · rw [scan_project_structure_eq] at h
    simp only [List.mem_flatMap] at h
    obtain ⟨wd, _, e, _, he⟩ := h
    unfold permEntryIssues at he
    split at he
    · split at he
      · simp only [List.mem_singleton] at he
        left; rw [he]; rfl
      · simp at he
    · simp at he
  · simp [scan_dependencies] at h
  · rw [scan_sensitive_info_eq] at h
    simp only [List.mem_flatMap] at h
    obtain ⟨wd, _, f, _, he⟩ := h
    unfold sensitiveFileIssues at he
    split at he
    · simp at he
    · split at he
      · simp at he
      · rw [sensitiveIssuesOfContent_eq] at he
        simp only [List.mem_flatMap, List.mem_map] at he
        obtain ⟨pp, _, st, _, he⟩ := he
        right; rw [← he]; rfl
  · rw [scan_malware_nil] at h
    simp at h
  · rw [scan_vulnerabilities_eq] at h
    simp only [List.mem_flatMap] at h
    obtain ⟨wd, _, f, _, he⟩ := h
    unfold vulnFileIssues at he
    split at he
    · simp at he
    · split at he
      · simp at he
      · rw [vulnIssuesOfContent_eq] at he
        simp only [List.mem_flatMap, List.mem_map] at he
        obtain ⟨pp, _, st, _, he⟩ := he
        right; rw [← he]; rfl

/-! ## Association-list lemmas -/

theorem assocIncr_isSome_iff (m : List (String × Nat)) (k : String) :
    (assocIncr m k).isSome = true ↔ k ∈ m.map Prod.fst := by
  induction m with
  | nil => simp [assocIncr]
  | cons p t ih =>
    by_cases h : p.1 = k
    · simp [assocIncr, h]
    · have h' : ¬ (k = p.1) := fun c => h c.symm
      simpa [assocIncr, h, h'] using ih

theorem assocIncr_keys (m : List (String × Nat)) (k : String) (m' : List (String × Nat))
    (h : assocIncr m k = some m') : m'.map Prod.fst = m.map Prod.fst := by
  induction m generalizing m' with
  | nil => simp [assocIncr] at h
  | cons p t ih =>
    by_cases hp : p.1 = k
    · unfold assocIncr at h
      rw [if_pos hp] at h
      cases h
      simp
    · unfold assocIncr at h
      rw [if_neg hp] at h
      cases ht : assocIncr t k with
      | none => rw [ht] at h; simp at h
      | some t' =>
        rw [ht] at h
        simp only [Option.map_some'] at h
        cases h
        simp [ih t' ht]

theorem summLoop_isSome_iff (issues : List SecurityIssue) :
    ∀ (sc it : List (String × Nat)),
      (summLoop issues sc it).isSome = true ↔
        ∀ i ∈ issues, i.severity ∈ sc.map Prod.fst := by
  induction issues with
  | nil => intro sc it; simp [summLoop]
  | cons i rest ih =>
    intro sc it
    unfold summLoop
    cases hinc : assocIncr sc i.severity with
    | none =>
      simp only [Option.isSome_none, Bool.false_eq_true, false_iff]
      intro hall
      have hmem := hall i (List.mem_cons_self i rest)
      rw [← assocIncr_isSome_iff, hinc] at hmem
      simp at hmem
    | some sc1 =>
      have hmem : i.severity ∈ sc.map Prod.fst := by
        rw [← assocIncr_isSome_iff, hinc]; rfl
      rw [ih sc1 (assocGetIncr it i.type), assocIncr_keys sc i.severity sc1 hinc]
      constructor
      · intro hall j hj
        rcases List.mem_cons.mp hj with heq | hj'
        · rw [heq]; exact hmem
        · exact hall j hj'
      · intro hall j hj
        exact hall j (List.mem_cons_of_mem _ hj)

theorem assocGet_assocGetIncr (m : List (String × Nat)) (k t : String) :
    assocGet (assocGetIncr m k) t =
      if t = k then some ((assocGet m k).getD 0 + 1) else assocGet m t := by
  induction m with
  | nil =>
    by_cases h : t = k
    · subst h; simp [assocGetIncr, assocGet]
    · have h' : ¬ (k = t) := fun c => h c.symm
      simp [assocGetIncr, assocGet, h, h']
  | cons p r ih =>
    by_cases hp : p.1 = k
    · by_cases h : t = k
      · subst h
        simp [assocGetIncr, assocGet, hp]
      · have h' : ¬ (p.1 = t) := by rw [hp]; exact fun c => h c.symm
        have h2 : ¬ (k = t) := fun c => h c.symm
        simp [assocGetIncr, assocGet, hp, h, h', h2]
    · by_cases hpt : p.1 = t
      · have h : ¬ (t = k) := by rw [← hpt]; exact fun c => hp c
        simp [assocGetIncr, assocGet, hp, hpt, h]
      · simp [assocGetIncr, assocGet, hp, hpt, ih]

/-- How one pass over `issues` changes a count read from the
`issue_types` dict: absent keys stay absent when nothing is added,
otherwise the count is added (`bumpBy none n` is the value after the
first `d[k] = d.get(k, 0) + 1` insertions, `bumpBy (some m) n` after
later ones). -/
def bumpBy (o : Option Nat) (n : Nat) : Option Nat :=
  match o with
  | some m => some (m + n)
  | none => if n = 0 then none else some n

theorem bumpBy_some (m n : Nat) : bumpBy (some m) n = some (m + n) := rfl

theorem bumpBy_none (n : Nat) :
    bumpBy none n = if n = 0 then none else some n := rfl

theorem bumpBy_step (o : Option Nat) (cp : Nat) :
    bumpBy (some (o.getD 0 + 1)) cp = bumpBy o (cp + 1) := by
  cases o with
  | none =>
    rw [bumpBy_none, if_neg (Nat.succ_ne_zero cp)]
    simp [bumpBy]
    omega
  | some m =>
    rw [bumpBy_some, bumpBy_some]
    simp
    omega

theorem summLoop_types (issues : List SecurityIssue) :
    ∀ (sc it sc' it' : List (String × Nat)),
      summLoop issues sc it = some (sc', it') →
      ∀ t, assocGet it' t =
        bumpBy (assocGet it t) (issues.countP (fun i => i.type == t)) := by
  induction issues with
  | nil =>
    intro sc it sc' it' h t
    unfold summLoop at h
    cases h
    cases hg : assocGet it t <;> simp [List.countP_nil, hg, bumpBy]
  | cons i rest ih =>
    intro sc it sc' it' h t
    unfold summLoop at h
    cases hinc : assocIncr sc i.severity with
    | none => rw [hinc] at h; simp at h
    | some sc1 =>
      rw [hinc] at h
      have hrec := ih sc1 (assocGetIncr it i.type) sc' it' h t
      rw [assocGet_assocGetIncr] at hrec
      rw [List.countP_cons]
      by_cases hit : t = i.type
      · rw [if_pos hit] at hrec
        have hb : (i.type == t) = true := by simp [hit.symm]
        rw [hb, if_pos rfl, hrec, hit, bumpBy_step]
      · rw [if_neg hit] at hrec
        have hb : (i.type == t) = false := by
          simp only [beq_eq_false_iff_ne, ne_eq]
          exact fun c => hit c.symm
        rw [hb]
        simpa using hrec

/-- `generate_summary` succeeds on every issue list a scan produces,
because every detector-emitted severity is one of the initialized keys. -/
theorem generate_summary_allIssues_isOk (w : Walk) :
    (generate_summary (allIssues w)).isOk = true := by
  unfold generate_summary
  cases hl : summLoop (allIssues w) init_severity_counts [] with
  | none =>
    exfalso
    have hiff := summLoop_isSome_iff (allIssues w) init_severity_counts []
    rw [hl] at hiff
    simp only [Option.isSome_none, Bool.false_eq_true, false_iff] at hiff
    apply hiff
    intro i hi
    have hk : init_severity_counts.map Prod.fst =
        ["critical", "high", "medium", "low"] := rfl
    rw [hk]
    rcases allIssues_severity w i hi with h | h <;> simp [h]
  | some p => rfl

/-! ## Concrete fixtures -/

/-- A successful stat with the given `st_mode`. -/
def statOf (m : Nat) : StatInfo := { mode := m, ok := true }

/-- A walk with one fully permissive but otherwise empty regular file:
its scan yields exactly one medium finding. -/
def wMed : Walk :=
  [{ root := "p", dirs := [],
     files := [{ name := "m.txt", stat := statOf 0o100777, content := some "",
                 hash := "" }] }]

/-- A walk with one normally-permissioned file containing a credential
assignment: its scan yields exactly one high finding. -/
def wHigh : Walk :=
  [{ root := "p", dirs := [],
     files := [{ name := "k.txt", stat := statOf 0o100644,
                 content := some "pwd:'x'", hash := "" }] }]

/-! ## Claims -/

/-- C1: for every report a scan produces, `is_secure` is false iff at
least one finding of the report has severity critical or high. -/
theorem c1_is_secure_iff_critical_or_high (ts : String) (w : Walk) (r : ScanResult)
    (h : scan_project ts w = .ok r) :
    r.is_secure = false ↔
      ∃ i ∈ r.issues, i.severity = "critical" ∨ i.severity = "high" := by
  simp only [scan_project] at h
  split at h
  · exact absurd h (by simp)
  · simp only [Except.ok.injEq] at h
    subst h
    show (((allIssues w).filter
        (fun i => i.severity == "high" || i.severity == "critical")).length == 0)
        = false ↔
      ∃ i ∈ allIssues w, i.severity = "critical" ∨ i.severity = "high"
    rw [beq_eq_false_iff_ne, Ne, List.length_eq_zero, List.filter_eq_nil_iff]
    constructor
    · intro hno
      by_contra hc
      apply hno
      intro i hi
      intro hp
      simp only [Bool.or_eq_true, beq_iff_eq] at hp
      rcases hp with h1 | h1
      · exact hc ⟨i, hi, Or.inr h1⟩
      · exact hc ⟨i, hi, Or.inl h1⟩
    · rintro ⟨i, hi, h1 | h1⟩ hall
      · have hx := hall i hi; simp [h1] at hx
      · have hx := hall i hi; simp [h1] at hx

/-- C1 witness: a scan whose only finding is medium is secure, one whose
only finding is high is insecure. -/
theorem c1_witness :
    ((reportOf "t" wMed).is_secure = false ↔
      ∃ i ∈ (reportOf "t" wMed).issues,
        i.severity = "critical" ∨ i.severity = "high")
    ∧ ((reportOf "t" wHigh).is_secure = false ↔
      ∃ i ∈ (reportOf "t" wHigh).issues,
        i.severity = "critical" ∨ i.severity = "high")
    ∧ (reportOf "t" wMed).is_secure = true
    ∧ (reportOf "t" wHigh).is_secure = false
    ∧ (reportOf "t" wMed).issues.map SecurityIssue.severity = ["medium"]
    ∧ (reportOf "t" wHigh).issues.map SecurityIssue.severity = ["high"] :=
  ⟨c1_is_secure_iff_critical_or_high "t" wMed (reportOf "t" wMed) (by decide),
   c1_is_secure_iff_critical_or_high "t" wHigh (reportOf "t" wHigh) (by decide),
   by decide, by decide, by decide, by decide⟩

/-- C2 counterexample: the claim says a path that does not exist or is not
a readable directory makes `scan_project` surface a distinct error.  In
the code, `os.walk` over such a path yields no triples and raises nothing
(the walk is `[]`), and `scan_project` returns a normal empty report with
`is_secure = true` — not an error. -/
theorem c2_counterexample :
    scan_project "t" [] =
      .ok { timestamp := "t", issues := [],
            summary := { total_issues := 0,
                         severity_counts := init_severity_counts,
                         issue_types := [], recommendations := 0 },
            is_secure := true } := rfl

/-- C2 (amended): `scan_project` never fails the whole scan for any
project path: a path that does not exist or is not a readable directory
(walk `[]`) produces a normal report with zero findings and
`is_secure = true`, and every other walk also produces a normal report. -/
theorem c2_scan_never_fails (ts : String) (w : Walk) :
    (scan_project ts w).isOk = true
    ∧ (w = [] →
        scan_project ts w =
          .ok { timestamp := ts, issues := [],
                summary := { total_issues := 0,
                             severity_counts := init_severity_counts,
                             issue_types := [], recommendations := 0 },
                is_secure := true }) := by
  constructor
  · simp only [scan_project]
    split
    · rename_i e heq
      have hk := generate_summary_allIssues_isOk w
      rw [heq] at hk
      exact Bool.noConfusion hk
    · rfl
  · rintro rfl
    rfl

/-- C2 witness: the amended claim at the walk of a nonexistent path. -/
theorem c2_witness :
    (scan_project "t" ([] : Walk)).isOk = true
    ∧ scan_project "t" ([] : Walk) =
        .ok { timestamp := "t", issues := [],
              summary := { total_issues := 0,
                           severity_counts := init_severity_counts,
                           issue_types := [], recommendations := 0 },
              is_secure := true } :=
  ⟨(c2_scan_never_fails "t" []).1, (c2_scan_never_fails "t" []).2 rfl⟩

/-- C3: scanning an empty readable directory (one walk triple with no
entries) yields `is_secure = true`, `total_issues = 0`, and a
`severity_counts` map carrying all four severity keys, each zero. -/
theorem c3_empty_dir_report (ts root : String) :
    scan_project ts [{ root := root, dirs := [], files := [] }] =
      .ok { timestamp := ts, issues := [],
            summary := { total_issues := 0,
                         severity_counts := init_severity_counts,
                         issue_types := [], recommendations := 0 },
            is_secure := true }
    ∧ assocGet init_severity_counts "critical" = some 0
    ∧ assocGet init_severity_counts "high" = some 0
    ∧ assocGet init_severity_counts "medium" = some 0
    ∧ assocGet init_severity_counts "low" = some 0 :=
  ⟨rfl, rfl, rfl, rfl, rfl⟩

/-- The content used by C4's concrete instance: the credential match
starts after two newline characters, i.e. on line 3. -/
def lineThreeContent : String := "x\ny\npwd:'x'"

/-- C4: every finding emitted by the sensitive-data and
vulnerability-pattern scans carries
`line_number = 1 + (newlines strictly before the match start)`; in
particular a match beginning on line 3 (two preceding newlines) yields
`line_number = 3`. -/
theorem c4_line_number_from_match_start :
    (∀ fp content : String,
      (sensitiveIssuesOfContent fp content).map SecurityIssue.line_number =
        sensitive_patterns.flatMap (fun pp =>
          (matchStarts pp.2 content).map
            (fun st => ((content.toList.take st).count '\n') + 1)))
    ∧ (∀ fp content : String,
      (vulnIssuesOfContent fp content).map SecurityIssue.line_number =
        vulnerability_patterns.flatMap (fun pp =>
          (matchStarts pp.2 content).map
            (fun st => ((content.toList.take st).count '\n') + 1)))
    ∧ (sensitiveIssuesOfContent "f" lineThreeContent).map
        SecurityIssue.line_number = [3] := by
  refine ⟨?_, ?_, by decide⟩
  · intro fp content
    rw [sensitiveIssuesOfContent_eq, List.map_flatMap]
    exact List.flatMap_congr (fun pp _ => by rw [List.map_map]; rfl)
  · intro fp content
    rw [vulnIssuesOfContent_eq, List.map_flatMap]
    exact List.flatMap_congr (fun pp _ => by rw [List.map_map]; rfl)

/-- The permission detector as the claim describes it: every walked entry
(directory or file) whose stat succeeds and whose permission bits are all
of `0o777` yields exactly one finding; every other entry yields none. -/
def permissionFindingsSpec (w : Walk) : List SecurityIssue :=
  w.flatMap (fun wd =>
    ((walkEntries wd).map (fun p => (joinPath wd.root p.1, p.2))).filterMap
      (fun e =>
        if e.2.ok && (e.2.mode % 512 == 511) then some (permissionIssue e.1)
        else none))

/-- C5: the permission detector emits exactly one
`excessive_permissions`/medium finding per walked entry with fully open
permission bits, none for stricter entries, and skips entries whose stat
fails. -/
theorem c5_permission_detector :
    (∀ w, scan_project_structure w = permissionFindingsSpec w)
    ∧ (∀ p, (permissionIssue p).type = "excessive_permissions"
        ∧ (permissionIssue p).severity = "medium") := by
  constructor
  · intro w
    rw [scan_project_structure_eq]
    unfold permissionFindingsSpec
    refine List.flatMap_congr (fun wd _ => ?_)
    induction walkEntries wd with
    | nil => rfl
    | cons p t ih =>
      simp only [List.flatMap_cons, List.map_cons, List.filterMap_cons]
      rw [← ih]
      unfold permEntryIssues
      cases hok : p.2.ok with
      | false => simp [hok]
      | true =>
        by_cases hm : p.2.mode % 512 = 511 <;> simp [hok, hm]
  · intro p
    exact ⟨rfl, rfl⟩

/-- C6: aggregation succeeds exactly when every severity is in the fixed
set; a foreign severity raises (`KeyError`, embedded as `Except.error`)
instead of being dropped or coerced — shown concretely on a finding with
severity "informational". -/
theorem c6_severity_validation (issues : List SecurityIssue) :
    ((generate_summary issues).isOk = true ↔
      ∀ i ∈ issues, i.severity ∈ ["critical", "high", "medium", "low"])
    ∧ generate_summary
        [{ type := "weird", description := "", severity := "informational",
           file_path := "", line_number := 0, recommendation := "" }] =
      .error "KeyError" := by
  refine ⟨?_, by decide⟩
  unfold generate_summary
  have hk : init_severity_counts.map Prod.fst =
      ["critical", "high", "medium", "low"] := rfl
  cases hl : summLoop issues init_severity_counts [] with
  | none =>
    have hiff := summLoop_isSome_iff issues init_severity_counts []
    rw [hl, hk] at hiff
    simp only [Option.isSome_none, Bool.false_eq_true, false_iff] at hiff
    constructor
    · intro hfalse
      exact Bool.noConfusion hfalse
    · intro hall
      exact absurd hall hiff
  | some p =>
    have hiff := summLoop_isSome_iff issues init_severity_counts []
    rw [hl, hk] at hiff
    simp only [Option.isSome_some, true_iff] at hiff
    constructor
    · intro _
      exact hiff
    · intro _
      rfl

/-- C7: the text-scanning detectors skip undecodable files without
raising, and the remaining findings are the same as if those files were
absent from the tree. -/
theorem c7_undecodable_files_skipped (w : Walk) :
    scan_sensitive_info w = scan_sensitive_info (dropUndecodable w)
    ∧ scan_vulnerabilities w = scan_vulnerabilities (dropUndecodable w) := by
  constructor
  · rw [scan_sensitive_info_eq, scan_sensitive_info_eq]
    unfold dropUndecodable
    rw [List.flatMap_map]
    refine List.flatMap_congr (fun wd _ => ?_)
    exact flatMap_filter_of_nil _ _
      (fun f hf => by
        unfold sensitiveFileIssues
        cases hc : f.content with
        | none => split <;> simp
        | some c => rw [hc] at hf; simp [Option.isSome] at hf)
      wd.files
  · rw [scan_vulnerabilities_eq, scan_vulnerabilities_eq]
    unfold dropUndecodable
    rw [List.flatMap_map]
    refine List.flatMap_congr (fun wd _ => ?_)
    exact flatMap_filter_of_nil _ _
      (fun f hf => by
        unfold vulnFileIssues
        cases hc : f.content with
        | none => split <;> simp
        | some c => rw [hc] at hf; simp [Option.isSome] at hf)
      wd.files

/-- C8: on a successful GET the header audit maps exactly the seven fixed
header names, each to the presence test against the response headers; a
transport failure is returned as the error payload. -/
theorem c8_header_audit :
    (∀ e, check_security_headers (.error e) = .error e)
    ∧ (∀ hs res, check_security_headers (.ok hs) = .ok res →
        res.map Prod.fst = security_header_names
        ∧ ∀ p ∈ res, (p.2 = true ↔ headerPresent hs p.1 = true)) := by
  constructor
  · intro e
    rfl
  · intro hs res h
    unfold check_security_headers at h
    simp only [Except.ok.injEq] at h
    subst h
    constructor
    · rw [List.map_map, List.map_map]
      show security_header_names.map (fun n => n) = security_header_names
      exact List.map_id' security_header_names
    · intro p hp
      simp only [List.map_map, List.mem_map] at hp
      obtain ⟨q, _, hq⟩ := hp
      rw [← hq]
      exact Iff.rfl

/-- C8 witness: a response with none of the seven headers reports all
seven false; a response carrying two of them (one in a different case, as
the case-insensitive header mapping allows) reports exactly those two
true. -/
theorem c8_witness :
    ((headerAuditOf []).map Prod.fst = security_header_names
      ∧ ∀ p ∈ headerAuditOf [], (p.2 = true ↔ headerPresent [] p.1 = true))
    ∧ ((headerAuditOf ["Content-Security-Policy", "x-frame-options"]).map
          Prod.fst = security_header_names
      ∧ ∀ p ∈ headerAuditOf ["Content-Security-Policy", "x-frame-options"],
          (p.2 = true ↔
            headerPresent ["Content-Security-Policy", "x-frame-options"] p.1
              = true))
    ∧ (headerAuditOf []).all (fun p => p.2 == false) = true
    ∧ headerAuditOf ["Content-Security-Policy", "x-frame-options"] =
        [("Strict-Transport-Security", false), ("Content-Security-Policy", true),
         ("X-Frame-Options", true), ("X-Content-Type-Options", false),
         ("X-XSS-Protection", false), ("Referrer-Policy", false),
         ("Permissions-Policy", false)] :=
  ⟨c8_header_audit.2 [] (headerAuditOf []) rfl,
   c8_header_audit.2 ["Content-Security-Policy", "x-frame-options"]
     (headerAuditOf ["Content-Security-Policy", "x-frame-options"]) rfl,
   by decide, by decide⟩

/-- C9: the summary's `issue_types` has an entry exactly for the kinds
that occur among the findings, each mapped to its occurrence count. -/
theorem c9_issue_types_counts (issues : List SecurityIssue) (s : Summary)
    (h : generate_summary issues = .ok s) (t : String) :
    assocGet s.issue_types t =
      if issues.countP (fun i => i.type == t) = 0 then none
      else some (issues.countP (fun i => i.type == t)) := by
  unfold generate_summary at h
  cases hl : summLoop issues init_severity_counts [] with
  | none => rw [hl] at h; exact absurd h (by simp)
  | some p =>
    obtain ⟨sc, it⟩ := p
    rw [hl] at h
    simp only [Except.ok.injEq] at h
    subst h
    have hb := summLoop_types issues init_severity_counts [] sc it hl t
    simpa [assocGet, bumpBy] using hb

/-- The issue list used by C9's witness: two findings of one kind, one of
another. -/
def demoIssues : List SecurityIssue :=
  [{ type := "a", description := "", severity := "low", file_path := "",
     line_number := 0, recommendation := "" },
   { type := "b", description := "", severity := "medium", file_path := "",
     line_number := 0, recommendation := "" },
   { type := "a", description := "", severity := "low", file_path := "",
     line_number := 0, recommendation := "" }]

/-- C9 witness: on a concrete finding list, a kind occurring twice maps to
2, one occurring once maps to 1, and an absent kind has no entry. -/
theorem c9_witness :
    assocGet (summaryOf demoIssues).issue_types "a" = some 2
    ∧ assocGet (summaryOf demoIssues).issue_types "b" = some 1
    ∧ assocGet (summaryOf demoIssues).issue_types "c" = none :=
  ⟨(c9_issue_types_counts demoIssues (summaryOf demoIssues) rfl "a").trans
      (by decide),
   (c9_issue_types_counts demoIssues (summaryOf demoIssues) rfl "b").trans
      (by decide),
   (c9_issue_types_counts demoIssues (summaryOf demoIssues) rfl "c").trans
      (by decide)⟩

/-- C10: a hidden file with an allowed source extension is scanned by the
vulnerability detector (its content is matched against the vulnerability
rules) but is always skipped by the sensitive-data detector. -/
theorem c10_hidden_file_asymmetry (root : String) (f : FileEntry) (c : String)
    (hhid : strStarts f.name "." = true)
    (hext : srcExts.any (fun e => strEnds f.name e) = true)
    (hc : f.content = some c) :
    scan_sensitive_info [{ root := root, dirs := [], files := [f] }] = []
    ∧ scan_vulnerabilities [{ root := root, dirs := [], files := [f] }] =
        vulnIssuesOfContent (joinPath root f.name) c := by
  constructor
  · rw [scan_sensitive_info_eq]
    simp only [List.flatMap_cons, List.flatMap_nil, List.append_nil]
    unfold sensitiveFileIssues sensitiveSkip
    rw [hhid]
    simp
  · rw [scan_vulnerabilities_eq]
    simp only [List.flatMap_cons, List.flatMap_nil, List.append_nil]
    unfold vulnFileIssues
    rw [hext, hc]
    simp

/-- The hidden source file used by C10's witness. -/
def hiddenFile : FileEntry :=
  { name := ".evil.py", stat := statOf 0o100644, content := some "eval(x)",
    hash := "" }

/-- C10 witness: a hidden `.py` file containing a command-injection sink
yields no sensitive-data finding but one vulnerability finding. -/
theorem c10_witness :
    scan_sensitive_info [{ root := "p", dirs := [], files := [hiddenFile] }] = []
    ∧ scan_vulnerabilities [{ root := "p", dirs := [], files := [hiddenFile] }] =
        vulnIssuesOfContent "p/.evil.py" "eval(x)"
    ∧ vulnIssuesOfContent "p/.evil.py" "eval(x)" =
        [{ type := "potential_command_injection",
           description := "Potential command_injection vulnerability detected",
           severity := "high", file_path := "p/.evil.py", line_number := 1,
           recommendation :=
             "Review and fix potential command_injection vulnerability" }] :=
  ⟨(c10_hidden_file_asymmetry "p" hiddenFile "eval(x)" (by decide) (by decide)
      rfl).1,
   (c10_hidden_file_asymmetry "p" hiddenFile "eval(x)" (by decide) (by decide)
      rfl).2,
   by decide⟩

end SecScan
